import Mathlib

/-!
Shallow embedding of the mkcert core: the CLI front end (`main`), the
library entry point `Config.Run` / `(*mkcert).Run`, the trust-store
orchestration (`install`, `uninstall`, `checkPlatform`, `storeEnabled`),
the subject classifier loop with its hostname grammar, and the
privileged-execution gate (`commandWithSudo`).

External collaborators (`net.ParseIP`, `mail.ParseAddress`, `url.Parse`,
`idna.ToASCII`, the platform trust-store helpers, `loadCA`, `makeCert`,
`makeCertFromCSR` internals) are modelled as oracles: boolean/option
parameters recording only the outcome the surrounding code branches on.
Side effects are recorded as an explicit `Action` trace.
-/

namespace Mkcert

/-- Command-line flags parsed by `main`. -/
structure Flags where
  install : Bool := false
  uninstall : Bool := false
  pkcs12 : Bool := false
  ecdsa : Bool := false
  client : Bool := false
  help : Bool := false
  caroot : Bool := false
  csr : String := ""
  certFile : String := ""
  keyFile : String := ""
  p12File : String := ""
  version : Bool := false
  deriving Repr, DecidableEq

/-- The `Config` struct. `ignoreCheckFailure` is the unexported
suppression flag; its zero value is `false`. -/
structure Config where
  InstallMode : Bool := false
  UninstallMode : Bool := false
  PKCS12 : Bool := false
  ECDSA : Bool := false
  Client : Bool := false
  KeyFile : String := ""
  CertFile : String := ""
  P12File : String := ""
  CSRPath : String := ""
  CAROOT : String := ""
  ignoreCheckFailure : Bool := false
  deriving Repr, DecidableEq

/-- The `Config` literal `main` builds from the parsed flags. -/
def configOf (fl : Flags) : Config :=
  { InstallMode := fl.install, UninstallMode := fl.uninstall,
    CSRPath := fl.csr, PKCS12 := fl.pkcs12, ECDSA := fl.ecdsa,
    Client := fl.client, CertFile := fl.certFile, KeyFile := fl.keyFile,
    P12File := fl.p12File }

/-- What `main` does after flag parsing: print help, print the version,
print the CAROOT, die with a fatal error, print usage, or hand a
validated `Config` plus the positional arguments to `Config.Run`. -/
inductive MainOutcome where
  | showHelp
  | showVersion
  | printCAROOT
  | fatalError (msg : String)
  | showUsage
  | runConfig (cfg : Config) (args : List String)
  deriving Repr, DecidableEq

/-- The decision structure of `main`, branch for branch in source
order: `-help`, `-version`, `-CAROOT` (with its `-[un]install`
conflict), `-install`+`-uninstall`, `-csr` with algorithm/usage flags,
`-csr` with positional arguments, the usage check, then `Config.Run`.
The usage condition tests `csr ≠ ""` exactly as the source does. -/
def mainDecide (fl : Flags) (args : List String) : MainOutcome :=
  if fl.help then .showHelp
  else if fl.version then .showVersion
  else if fl.caroot then
    if fl.install || fl.uninstall then
      .fatalError "ERROR: you can\x27t set -[un]install and -CAROOT at the same time"
    else .printCAROOT
  else if fl.install && fl.uninstall then
    .fatalError "ERROR: you can\x27t set -install and -uninstall at the same time"
  else if fl.csr != "" && (fl.pkcs12 || fl.ecdsa || fl.client) then
    .fatalError "ERROR: can only combine -csr with -install and -cert-file"
  else if fl.csr != "" && args.length != 0 then
    .fatalError "ERROR: can\x27t specify extra arguments when using -csr"
  else if args.length == 0 && !fl.install && !fl.uninstall && fl.csr != "" then
    .showUsage
  else .runConfig (configOf fl) args

/-- The three trust-store backends. -/
inductive Backend where
  | system
  | nss
  | java
  deriving Repr, DecidableEq

/-- Observable side effects of a run, recorded as a trace. `verifyCert`
is the `caCert.Verify` call inside `checkPlatform`; `deleteFile` exists
so frame properties ("no file is ever deleted") are statable — no code
path emits it. -/
inductive Action where
  | mkdirCAROOT (dir : String)
  | loadCA
  | verifyCert
  | checkNSSDB
  | checkJavaStore
  | installPlatform
  | installNSS
  | installJava
  | uninstallPlatform
  | uninstallNSS
  | uninstallJava
  | logLine (b : Option Backend) (msg : String)
  | makeCert (args : List String)
  | makeCertFromCSR (path : String)
  | deleteFile (path : String)
  deriving Repr, DecidableEq

/-- Backend attribution of an action, log lines included. -/
def Action.backend : Action → Option Backend
  | .verifyCert => some .system
  | .installPlatform => some .system
  | .uninstallPlatform => some .system
  | .checkNSSDB => some .nss
  | .installNSS => some .nss
  | .uninstallNSS => some .nss
  | .checkJavaStore => some .java
  | .installJava => some .java
  | .uninstallJava => some .java
  | .logLine b _ => b
  | _ => none

/-- Backend attribution restricted to probe/mutate operations
(log lines excluded). -/
def Action.storeOp : Action → Option Backend
  | .verifyCert => some .system
  | .installPlatform => some .system
  | .uninstallPlatform => some .system
  | .checkNSSDB => some .nss
  | .installNSS => some .nss
  | .uninstallNSS => some .nss
  | .checkJavaStore => some .java
  | .installJava => some .java
  | .uninstallJava => some .java
  | _ => none

/-- Is the action a certificate-issuance step? -/
def Action.isIssuance : Action → Bool
  | .makeCert _ => true
  | .makeCertFromCSR _ => true
  | _ => false

/-- Is the action a trust check (`checkPlatform` verification,
`checkNSS`, `checkJava`)? -/
def Action.isTrustCheck : Action → Bool
  | .verifyCert => true
  | .checkNSSDB => true
  | .checkJavaStore => true
  | _ => false

/-- Is the action a file deletion? -/
def Action.isFileDelete : Action → Bool
  | .deleteFile _ => true
  | _ => false

/-- Environment oracles: everything the orchestration code branches on
that comes from outside the repository (platform probes, helper-tool
availability, helper-tool outcomes, `TRUST_STORES`, the resolved
CAROOT, `os.MkdirAll` success). -/
structure Env where
  trustStores : String := ""
  caroot : String := "/data/mkcert"
  mkdirOK : Bool := true
  hasNSS : Bool := false
  hasJava : Bool := false
  hasCertutil : Bool := false
  hasKeytool : Bool := false
  certutilInstallHelp : String := ""
  nssBrowsers : String := "Firefox"
  verifyOK : Bool := false
  checkNSSOK : Bool := false
  checkJavaOK : Bool := false
  installPlatformOK : Bool := true
  installNSSOK : Bool := true
  uninstallPlatformOK : Bool := true
  deriving Repr, DecidableEq

/-- `storeEnabled`: true when `TRUST_STORES` is empty, otherwise when
the comma-separated list contains `name`. -/
def storeEnabled (env : Env) (name : String) : Bool :=
  if env.trustStores = "" then true
  else (env.trustStores.splitOn ",").contains name

/-- `checkPlatform`: when `ignoreCheckFailure` is set, return true
without verifying; otherwise verify the CA certificate against the
system roots (the oracle `verifyOK`) and record the verification. -/
def checkPlatform (env : Env) (ignoreCheckFailure : Bool) : Bool × List Action :=
  if ignoreCheckFailure then (true, [])
  else (env.verifyOK, [.verifyCert])

/-- System phase of `install`: returns (error, new `ignoreCheckFailure`
flag, trace). On a fresh successful platform install the flag is set. -/
def installSystem (env : Env) (flag : Bool) : Option String × Bool × List Action :=
  if storeEnabled env "system" then
    let (ok, t) := checkPlatform env flag
    if ok then
      (none, flag, t ++ [.logLine (some .system)
        "The local CA is already installed in the system trust store!"])
    else if env.installPlatformOK then
      (none, true, t ++ [.installPlatform, .logLine (some .system)
        "The local CA is now installed in the system trust store!"])
    else
      (some "ERROR: failed to install the local CA in the system trust store", flag,
        t ++ [.installPlatform])
  else (none, flag, [])

/-- NSS phase of `install`: check, then attempt the certutil install
when available, with the warning ladder from the source. -/
def installNSSPhase (env : Env) : List Action :=
  if storeEnabled env "nss" && env.hasNSS then
    [.checkNSSDB] ++
    (if env.checkNSSOK then
      [.logLine (some .nss)
        "The local CA is already installed in the NSS trust store!"]
     else
      (if env.hasCertutil then [.installNSS] else []) ++
      (if env.hasCertutil && env.installNSSOK then
        [.logLine (some .nss)
          "The local CA is now installed in the NSS trust store (requires browser restart)!"]
       else if env.certutilInstallHelp = "" then
        [.logLine (some .nss)
          "Note: NSS support is not available on your platform."]
       else if !env.hasCertutil then
        [.logLine (some .nss)
          "Warning: certutil is not available, so the CA can\x27t be automatically installed in NSS!",
         .logLine (some .nss)
          "Install certutil and re-run mkcert -install"]
       else []))
  else []

/-- Java phase of `install`: check, then keytool install or warning. -/
def installJavaPhase (env : Env) : List Action :=
  if storeEnabled env "java" && env.hasJava then
    [.checkJavaStore] ++
    (if env.checkJavaOK then
      [.logLine (some .java)
        "The local CA is already installed in Java\x27s trust store!"]
     else if env.hasKeytool then
      [.installJava, .logLine (some .java)
        "The local CA is now installed in Java\x27s trust store!"]
     else
      [.logLine (some .java)
        "Warning: keytool is not available, so the CA can\x27t be automatically installed in Java\x27s trust store!"])
  else []

/-- `install`: system phase (an error there returns early, before the
NSS and Java phases), then NSS, then Java, then a blank log line. -/
def install (env : Env) (flag : Bool) : Option String × Bool × List Action :=
  match installSystem env flag with
  | (some err, flag1, t1) => (some err, flag1, t1)
  | (none, flag1, t1) =>
    (none, flag1, t1 ++ installNSSPhase env ++ installJavaPhase env ++ [.logLine none ""])

/-- NSS phase of `uninstall` (runs first in the source). -/
def uninstallNSSPhase (env : Env) : List Action :=
  if storeEnabled env "nss" && env.hasNSS then
    if env.hasCertutil then [.uninstallNSS]
    else if env.certutilInstallHelp != "" then
      [.logLine (some .nss) "",
       .logLine (some .nss)
        "Warning: certutil is not available, so the CA can\x27t be automatically uninstalled from NSS (if it was ever installed)!",
       .logLine (some .nss)
        "You can install certutil and re-run mkcert -uninstall",
       .logLine (some .nss) ""]
    else []
  else []

/-- Java phase of `uninstall` (runs second in the source). -/
def uninstallJavaPhase (env : Env) : List Action :=
  if storeEnabled env "java" && env.hasJava then
    if env.hasKeytool then [.uninstallJava]
    else
      [.logLine (some .java) "",
       .logLine (some .java)
        "Warning: keytool is not available, so the CA can\x27t be automatically uninstalled from Java\x27s trust store (if it was ever installed)!",
       .logLine (some .java) ""]
  else []

/-- System phase of `uninstall` (runs last in the source), with the
NSS-only summary line in the `else if` branch. -/
def uninstallSystemPhase (env : Env) : Option String × List Action :=
  if storeEnabled env "system" then
    if env.uninstallPlatformOK then
      (none, [.uninstallPlatform,
        .logLine (some .system)
         "The local CA is now uninstalled from the system trust store(s)!",
        .logLine none ""])
    else
      (some "ERROR: failed to uninstall the local CA from the system trust store", [.uninstallPlatform])
  else if storeEnabled env "nss" && env.hasCertutil then
    (none, [.logLine (some .nss)
      "The local CA is now uninstalled from the NSS trust store(s)!",
      .logLine none ""])
  else (none, [])

/-- `uninstall`: NSS phase, then Java phase, then system phase. -/
def uninstall (env : Env) : Option String × List Action :=
  let t := uninstallNSSPhase env ++ uninstallJavaPhase env
  match uninstallSystemPhase env with
  | (e, t2) => (e, t ++ t2)

/-- Classifier oracles for the Go standard-library parsers the loop in
`Run` calls: `net.ParseIP` (did it parse), `mail.ParseAddress` (the
parsed canonical address, if any), `url.Parse` (scheme and host, if the
parse succeeded), and `idna.ToASCII`. -/
structure ClassEnv where
  parseIP : String → Bool
  parseAddress : String → Option String
  parseURL : String → Option (String × String)
  toASCII : String → Except String String

/-- Character class `[0-9a-z_-]` under the regexp's `(?i)` flag
(ASCII case folding). -/
def bodyChar (c : Char) : Bool :=
  c.isDigit || c.isLower || c.isUpper || c == '_' || c == '-'

/-- Character class `[0-9a-z._-]` under `(?i)`. -/
def tailChar (c : Char) : Bool :=
  bodyChar c || c == '.'

/-- The optional group `([0-9a-z._-]*[0-9a-z_-])?`: empty, or a string
of `tailChar`s whose last character is a `bodyChar`. -/
def bodyTail : List Char → Bool
  | [] => true
  | [c] => bodyChar c
  | c :: rest => tailChar c && bodyTail rest

/-- `[0-9a-z_-]([0-9a-z._-]*[0-9a-z_-])?`: a leading `bodyChar`
followed by `bodyTail`. -/
def bodyMatch : List Char → Bool
  | [] => false
  | c :: rest => bodyChar c && bodyTail rest

/-- The anchored hostname regexp
`(?i)^(\*\.)?[0-9a-z_-]([0-9a-z._-]*[0-9a-z_-])?$`: an optional
literal `*.` (which, when present, is the only way the match can
succeed, since `*` lies outside both character classes), then the
body. -/
def hostnameRegexpMatch (s : String) : Bool :=
  match s.data with
  | '*' :: '.' :: rest => bodyMatch rest
  | l => bodyMatch l

/-- Outcome of one iteration of the classifier loop: leave the
argument alone (IP / email / URL), overwrite it in place with the
punycode conversion, or fail the whole run. -/
inductive ClassResult where
  | keep
  | replace (punycode : String)
  | fail (msg : String)
  deriving Repr, DecidableEq

/-- One iteration of the classifier loop in `Run`: IP literal first;
then email, accepted only when the parsed canonical address equals the
input; then URL, accepted only with a non-empty scheme and host; else
the punycode/hostname-grammar path, which overwrites the argument and
can fail with the terminal classification error. -/
def classifyOne (ce : ClassEnv) (name : String) : ClassResult :=
  if ce.parseIP name then .keep
  else if (match ce.parseAddress name with
           | some addr => addr == name
           | none => false) then .keep
  else if (match ce.parseURL name with
           | some (scheme, host) => scheme != "" && host != ""
           | none => false) then .keep
  else match ce.toASCII name with
    | .error e =>
      .fail ("ERROR: \"" ++ name ++ "\" is not a valid hostname, IP, URL or email: " ++ e)
    | .ok punycode =>
      if hostnameRegexpMatch punycode then .replace punycode
      else .fail ("ERROR: \"" ++ name ++ "\" is not a valid hostname, IP, URL or email")

/-- The classifier loop over the whole argument list: stops at the
first failing entry (entries after it are not processed), otherwise
returns the list with punycode conversions substituted in place. -/
def classifyArgs (ce : ClassEnv) : List String → Except String (List String)
  | [] => .ok []
  | name :: rest =>
    match classifyOne ce name with
    | .fail msg => .error msg
    | .keep =>
      match classifyArgs ce rest with
      | .error msg => .error msg
      | .ok l => .ok (name :: l)
    | .replace p =>
      match classifyArgs ce rest with
      | .error msg => .error msg
      | .ok l => .ok (p :: l)

/-- The value each successfully classified argument contributes to the
final subject list: the punycode conversion for hostname candidates,
the argument itself otherwise. -/
def subst (ce : ClassEnv) (name : String) : String :=
  match classifyOne ce name with
  | .replace p => p
  | _ => name

/-- Result of a `Run` call, as seen by the caller. -/
inductive RunResult where
  | ok
  | error (msg : String)
  deriving Repr, DecidableEq

/-- A run's caller-visible result, its side-effect trace, and the final
value of the wrapped instance's `ignoreCheckFailure` field. -/
structure RunOutput where
  result : RunResult
  trace : List Action
  flag : Bool
  deriving Repr, DecidableEq

/-- The default-mode checks in `Run` (no install, no uninstall): probe
each enabled store, log a note per untrusted store, and a final warning
line when any note was logged. -/
def defaultChecks (env : Env) (flag : Bool) : List Action :=
  let sysOn := storeEnabled env "system"
  let sysCheck := checkPlatform env flag
  let sysT : List Action :=
    if sysOn then
      sysCheck.2 ++
      (if !sysCheck.1 then
        [.logLine (some .system) "Note: the local CA is not installed in the system trust store."]
       else [])
    else []
  let nssOn := storeEnabled env "nss" && env.hasNSS && env.certutilInstallHelp != ""
  let nssT : List Action :=
    if nssOn then
      [.checkNSSDB] ++
      (if !env.checkNSSOK then
        [.logLine (some .nss) "Note: the local CA is not installed in the NSS trust store."]
       else [])
    else []
  let javaOn := storeEnabled env "java" && env.hasJava
  let javaT : List Action :=
    if javaOn then
      [.checkJavaStore] ++
      (if !env.checkJavaOK then
        [.logLine (some .java) "Note: the local CA is not installed in the Java trust store."]
       else [])
    else []
  let warning :=
    (sysOn && !sysCheck.1) || (nssOn && !env.checkNSSOK) || (javaOn && !env.checkJavaOK)
  sysT ++ nssT ++ javaT ++
  (if warning then
    [.logLine none "Run \"mkcert -install\" for certificates to be trusted automatically"]
   else [])

/-- The tail of `Run` shared by the fallthrough paths: the CSR branch
(`makeCertFromCSR`, whose own error the source discards before
`return nil`), else the classifier loop followed by `makeCert`. -/
def afterModes (c : Config) (ce : ClassEnv) (args : List String)
    (t : List Action) (flag : Bool) : RunOutput :=
  if c.CSRPath != "" then
    { result := .ok, trace := t ++ [.makeCertFromCSR c.CSRPath], flag := flag }
  else
    match classifyArgs ce args with
    | .error msg => { result := .error msg, trace := t, flag := flag }
    | .ok args2 => { result := .ok, trace := t ++ [.makeCert args2], flag := flag }

/-- `(*mkcert).Run`: resolve CAROOT (empty is fatal), `os.MkdirAll`,
`loadCA`, then the mode switch. The install branch discards
`install`'s error and returns when the positional argument list is
empty (the source does not consult `CSRPath` here); the uninstall
branch discards `uninstall`'s error and returns `nil`; the default
branch runs the trust checks. The fallthrough paths continue to
`afterModes`. -/
def runM (c : Config) (env : Env) (ce : ClassEnv) (args : List String) : RunOutput :=
  if env.caroot = "" then
    { result := .error "ERROR: failed to find the default CA location, set one as the CAROOT env var",
      trace := [], flag := c.ignoreCheckFailure }
  else if !env.mkdirOK then
    { result := .error "ERROR: failed to create the CAROOT",
      trace := [.mkdirCAROOT env.caroot], flag := c.ignoreCheckFailure }
  else
    let t0 : List Action := [.mkdirCAROOT env.caroot, .loadCA]
    if c.InstallMode then
      match install env c.ignoreCheckFailure with
      | (_, flag1, t1) =>
        if args.length == 0 then
          { result := .ok, trace := t0 ++ t1, flag := flag1 }
        else afterModes c ce args (t0 ++ t1) flag1
    else if c.UninstallMode then
      match uninstall env with
      | (_, t1) => { result := .ok, trace := t0 ++ t1, flag := c.ignoreCheckFailure }
    else
      afterModes c ce args (t0 ++ defaultChecks env c.ignoreCheckFailure) c.ignoreCheckFailure

/-- `Config.Run` with the value receiver made explicit: the caller's
`Config` is copied into a fresh `mkcert` instance, so the run's whole
internal state (trace and final flag) is observable here but discarded
by `Config.Run` itself. -/
def Config.RunFull (c : Config) (env : Env) (ce : ClassEnv) (args : List String) : RunOutput :=
  runM c env ce args

/-- `func (c Config) Run(args ...string) error`: only the error is
returned; the fresh instance's final state is dropped on the floor. -/
def Config.Run (c : Config) (env : Env) (ce : ClassEnv) (args : List String) : RunResult :=
  (Config.RunFull c env ce args).result

/-- Two successive `Config.Run` calls on the same `Config` value.
Nothing flows from the first call to the second except the shared
(immutable) `Config`. -/
def Config.RunTwice (c : Config) (env1 env2 : Env) (ce : ClassEnv)
    (a1 a2 : List String) : RunResult × RunResult :=
  (Config.Run c env1 ce a1, Config.Run c env2 ce a2)

/-- The fixed sudo prompt string. -/
def sudoPrompt : String := "--prompt=Sudo password:"

/-- `commandWithSudo`, with the process state made explicit: `uid` is
`user.Current()`'s result (`none` models an error), `warned` is whether
the `sync.Once` has fired. Returns the argv actually executed, the new
`warned` state, and whether the warning was emitted by this call. -/
def commandWithSudo (uid : Option String) (hasSudo : Bool) (warned : Bool)
    (cmd : List String) : List String × Bool × Bool :=
  if uid == some "0" then (cmd, warned, false)
  else if !hasSudo then (cmd, true, !warned)
  else (["sudo", sudoPrompt, "--"] ++ cmd, warned, false)

/-- A whole process lifetime of `commandWithSudo` calls (each with its
own privilege observation), counting emitted warnings. -/
def warningsEmitted : List (Option String × Bool × List String) → Bool → Nat
  | [], _ => 0
  | (u, h, cmd) :: rest, warned =>
    match commandWithSudo u h warned cmd with
    | (_, w2, emitted) => (if emitted then 1 else 0) + warningsEmitted rest w2

/-- The backend order of `install`: system, then NSS, then Java. -/
def installRank : Backend → Nat
  | .system => 0
  | .nss => 1
  | .java => 2

/-- The backend order of `uninstall`: NSS, then Java, then system. -/
def uninstallRank : Backend → Nat
  | .nss => 0
  | .java => 1
  | .system => 2

/-- A backend sequence respects a rank order when it is pairwise
non-decreasing. -/
def orderedBy (r : Backend → Nat) (bs : List Backend) : Prop :=
  bs.Pairwise fun a b => r a ≤ r b

/-- Backend attribution (logs included) of a whole trace. -/
def backendSeq (t : List Action) : List Backend :=
  t.filterMap Action.backend

/-- Probe/mutate operations (logs excluded) of a whole trace. -/
def storeOpSeq (t : List Action) : List Backend :=
  t.filterMap Action.storeOp

/-- An action that neither issues a certificate, nor checks trust, nor
deletes a file. -/
def benign (a : Action) : Bool :=
  !a.isIssuance && !a.isTrustCheck && !a.isFileDelete

/-- Test environment with every store and helper tool present. -/
def envFull : Env :=
  { hasNSS := true, hasJava := true, hasCertutil := true, hasKeytool := true,
    certutilInstallHelp := "apt install libnss3-tools" }

/-- Concrete classifier oracles used by the witnesses: one recognised
IP literal, one canonical and one display-name-wrapped email, one
absolute and one scheme-and-host-less URL, and an `idna.ToASCII` that
fails on one input and is the identity elsewhere. -/
def ceTest : ClassEnv :=
  { parseIP := fun s => s == "127.0.0.1",
    parseAddress := fun s =>
      if s == "dev@example.com" then some "dev@example.com"
      else if s == "Dev <dev@example.com>" then some "dev@example.com"
      else none,
    parseURL := fun s =>
      if s == "https://example.com/run" then some ("https", "example.com")
      else if s == "relative/path" then some ("", "")
      else none,
    toASCII := fun s =>
      if s == "bad host" then .error "idna: disallowed rune"
      else if s == "münchen.de" then .ok "xn--mnchen-3ya.de"
      else .ok s }

/-! Helper lemmas. -/

theorem orderedBy_of_const (r : Backend → Nat) {l : List Backend} (n : Nat)
    (h : ∀ b ∈ l, r b = n) : orderedBy r l := by
  induction l with
  | nil => exact List.Pairwise.nil
  | cons a t ih =>
    refine List.Pairwise.cons (fun b hb => ?_) (ih fun b hb => h b (List.mem_cons_of_mem a hb))
    rw [h a (List.mem_cons_self a t), h b (List.mem_cons_of_mem a hb)]

theorem orderedBy_append (r : Backend → Nat) {l1 l2 : List Backend} (n : Nat)
    (h1 : ∀ b ∈ l1, r b ≤ n) (h2 : ∀ b ∈ l2, n ≤ r b)
    (o1 : orderedBy r l1) (o2 : orderedBy r l2) : orderedBy r (l1 ++ l2) := by
  unfold orderedBy at o1 o2 ⊢
  rw [List.pairwise_append]
  exact ⟨o1, o2, fun a ha b hb => le_trans (h1 a ha) (h2 b hb)⟩

theorem installSystem_backend (env : Env) (flag : Bool) :
    ∀ a ∈ (installSystem env flag).2.2, Action.backend a = some Backend.system := by
  intro a ha
  cases h1 : storeEnabled env "system" <;> cases flag <;> cases h3 : env.verifyOK <;>
    cases h4 : env.installPlatformOK <;>
      simp_all [installSystem, checkPlatform, Action.backend] <;> aesop

theorem installNSSPhase_backend (env : Env) :
    ∀ a ∈ installNSSPhase env, Action.backend a = some Backend.nss := by
  intro a ha
  by_cases h5 : env.certutilInstallHelp = "" <;>
    cases h1 : storeEnabled env "nss" <;> cases h2 : env.hasNSS <;>
      cases h3 : env.checkNSSOK <;> cases h4 : env.hasCertutil <;>
        cases h6 : env.installNSSOK <;>
          simp_all [installNSSPhase, Action.backend] <;> aesop

theorem installJavaPhase_backend (env : Env) :
    ∀ a ∈ installJavaPhase env, Action.backend a = some Backend.java := by
  intro a ha
  cases h1 : storeEnabled env "java" <;> cases h2 : env.hasJava <;>
    cases h3 : env.checkJavaOK <;> cases h4 : env.hasKeytool <;>
      simp_all [installJavaPhase, Action.backend] <;> aesop

theorem uninstallNSSPhase_storeOp (env : Env) :
    ∀ a ∈ uninstallNSSPhase env,
      Action.storeOp a = some Backend.nss ∨ Action.storeOp a = none := by
  intro a ha
  by_cases h5 : env.certutilInstallHelp = "" <;>
    cases h1 : storeEnabled env "nss" <;> cases h2 : env.hasNSS <;>
      cases h3 : env.hasCertutil <;>
        simp_all [uninstallNSSPhase, Action.storeOp] <;> aesop

theorem uninstallJavaPhase_storeOp (env : Env) :
    ∀ a ∈ uninstallJavaPhase env,
      Action.storeOp a = some Backend.java ∨ Action.storeOp a = none := by
  intro a ha
  cases h1 : storeEnabled env "java" <;> cases h2 : env.hasJava <;>
    cases h3 : env.hasKeytool <;>
      simp_all [uninstallJavaPhase, Action.storeOp] <;> aesop

theorem uninstallSystemPhase_storeOp (env : Env) :
    ∀ a ∈ (uninstallSystemPhase env).2,
      Action.storeOp a = some Backend.system ∨ Action.storeOp a = none := by
  intro a ha
  cases h1 : storeEnabled env "system" <;> cases h2 : env.uninstallPlatformOK <;>
    cases h3 : storeEnabled env "nss" <;> cases h4 : env.hasCertutil <;>
      simp_all [uninstallSystemPhase, Action.storeOp] <;> aesop

theorem backendSeq_const {t : List Action} {bk : Backend}
    (h : ∀ a ∈ t, Action.backend a = some bk) : ∀ b ∈ backendSeq t, b = bk := by
  intro b hb
  rcases List.mem_filterMap.mp hb with ⟨a, ha, hfa⟩
  rw [h a ha] at hfa
  exact (Option.some_inj.mp hfa).symm

theorem storeOpSeq_const {t : List Action} {bk : Backend}
    (h : ∀ a ∈ t, Action.storeOp a = some bk ∨ Action.storeOp a = none) :
    ∀ b ∈ storeOpSeq t, b = bk := by
  intro b hb
  rcases List.mem_filterMap.mp hb with ⟨a, ha, hfa⟩
  rcases h a ha with h2 | h2 <;> rw [h2] at hfa
  · exact (Option.some_inj.mp hfa).symm
  · cases hfa

theorem orderedBy_const {r : Backend → Nat} {l : List Backend} {bk : Backend}
    (h : ∀ b ∈ l, b = bk) : orderedBy r l :=
  orderedBy_of_const r (r bk) fun b hb => by rw [h b hb]

theorem backendSeq_append (t1 t2 : List Action) :
    backendSeq (t1 ++ t2) = backendSeq t1 ++ backendSeq t2 :=
  List.filterMap_append t1 t2 Action.backend

theorem storeOpSeq_append (t1 t2 : List Action) :
    storeOpSeq (t1 ++ t2) = storeOpSeq t1 ++ storeOpSeq t2 :=
  List.filterMap_append t1 t2 Action.storeOp

/-! Claim theorems. -/

/-- C3 counterexample: with every store and helper tool available,
`uninstall`'s probe/mutate sequence is NSS, Java, system — it does not
put the system store first as the claim states for both modes. -/
theorem c3_uninstall_not_system_first :
    ¬ orderedBy installRank (storeOpSeq (uninstall envFull).2) := by
  intro h
  rw [show storeOpSeq (uninstall envFull).2 =
      [Backend.nss, Backend.java, Backend.system] from rfl] at h
  unfold orderedBy at h
  rcases List.pairwise_cons.mp h with ⟨h1, _⟩
  have h2 := h1 Backend.system (by simp)
  simp [installRank] at h2

/-- C3 (amended): the backends are probed and mutated strictly
sequentially, but the fixed order is per mode — `install` touches the
system store first, then NSS, then Java (log lines included), while
`uninstall` touches NSS first, then Java, then the system store (its
probe/mutate operations; the only later NSS-attributed action is the
final summary log line). -/
theorem c3_backend_order (env : Env) (flag : Bool) :
    orderedBy installRank (backendSeq (install env flag).2.2) ∧
    orderedBy uninstallRank (storeOpSeq (uninstall env).2) := by
  constructor
  · have hsys := installSystem_backend env flag
    unfold install
    rcases hi : installSystem env flag with ⟨e, flag1, t1⟩
    rw [hi] at hsys
    have o1 : orderedBy installRank (backendSeq t1) :=
      orderedBy_const (backendSeq_const hsys)
    have b1 : ∀ b ∈ backendSeq t1, installRank b ≤ 0 := fun b hb => by
      rw [backendSeq_const hsys b hb]; exact le_refl 0
    cases e with
    | some err => simpa using o1
    | none =>
      simp only [backendSeq_append, List.append_assoc]
      refine orderedBy_append installRank 0 b1 (fun b _ => Nat.zero_le _) o1 ?_
      have hnss := backendSeq_const (installNSSPhase_backend env)
      have hjava := backendSeq_const (installJavaPhase_backend env)
      refine orderedBy_append installRank 1 (fun b hb => ?_) (fun b hb => ?_)
        (orderedBy_const hnss) ?_
      · rw [hnss b hb]; exact le_refl 1
      · rcases List.mem_append.mp hb with h2 | h2
        · rw [hjava b h2]; exact Nat.le_of_lt Nat.one_lt_two
        · simp [backendSeq, Action.backend] at h2
      · refine orderedBy_append installRank 2 (fun b hb => ?_) (fun b hb => ?_)
          (orderedBy_const hjava) ?_
        · rw [hjava b hb]; exact le_refl 2
        · simp [backendSeq, Action.backend] at hb
        · rw [show backendSeq [Action.logLine none ""] = [] from rfl]
          exact List.Pairwise.nil
  · have hsysop := uninstallSystemPhase_storeOp env
    unfold uninstall
    rcases hu : uninstallSystemPhase env with ⟨e, t2⟩
    rw [hu] at hsysop
    simp only [storeOpSeq_append]
    have hnss := storeOpSeq_const (uninstallNSSPhase_storeOp env)
    have hjava := storeOpSeq_const (uninstallJavaPhase_storeOp env)
    have hsys := storeOpSeq_const hsysop
    refine orderedBy_append uninstallRank 1 (fun b hb => ?_) (fun b hb => ?_) ?_
      (orderedBy_const hsys)
    · rcases List.mem_append.mp hb with h2 | h2
      · rw [hnss b h2]; exact Nat.zero_le 1
      · rw [hjava b h2]; exact le_refl 1
    · rw [hsys b hb]; exact Nat.le_of_lt Nat.one_lt_two
    · refine orderedBy_append uninstallRank 1 (fun b hb => ?_) (fun b hb => ?_)
        (orderedBy_const hnss) (orderedBy_const hjava)
      · rw [hnss b hb]; exact Nat.zero_le 1
      · rw [hjava b hb]; exact le_refl 1

theorem uninstallNSSPhase_benign (env : Env) :
    ∀ a ∈ uninstallNSSPhase env, benign a = true := by
  intro a ha
  by_cases h5 : env.certutilInstallHelp = "" <;>
    cases h1 : storeEnabled env "nss" <;> cases h2 : env.hasNSS <;>
      cases h3 : env.hasCertutil <;>
        simp_all [uninstallNSSPhase, benign, Action.isIssuance, Action.isTrustCheck,
          Action.isFileDelete] <;> aesop

theorem uninstallJavaPhase_benign (env : Env) :
    ∀ a ∈ uninstallJavaPhase env, benign a = true := by
  intro a ha
  cases h1 : storeEnabled env "java" <;> cases h2 : env.hasJava <;>
    cases h3 : env.hasKeytool <;>
      simp_all [uninstallJavaPhase, benign, Action.isIssuance, Action.isTrustCheck,
        Action.isFileDelete] <;> aesop

theorem uninstallSystemPhase_benign (env : Env) :
    ∀ a ∈ (uninstallSystemPhase env).2, benign a = true := by
  intro a ha
  cases h1 : storeEnabled env "system" <;> cases h2 : env.uninstallPlatformOK <;>
    cases h3 : storeEnabled env "nss" <;> cases h4 : env.hasCertutil <;>
      simp_all [uninstallSystemPhase, benign, Action.isIssuance, Action.isTrustCheck,
        Action.isFileDelete] <;> aesop

theorem uninstall_benign (env : Env) :
    ∀ a ∈ (uninstall env).2, benign a = true := by
  intro a ha
  have hsys := uninstallSystemPhase_benign env
  unfold uninstall at ha
  rcases hu : uninstallSystemPhase env with ⟨e, t2⟩
  rw [hu] at ha hsys
  simp only [List.mem_append] at ha
  rcases ha with (h | h) | h
  · exact uninstallNSSPhase_benign env a h
  · exact uninstallJavaPhase_benign env a h
  · exact hsys a h

/-- C8: in Uninstall mode `Run` detaches trust and returns: the whole
trace contains no certificate issuance, no trust check, and no file
deletion (in particular the CA files under CAROOT are untouched); the
outcome is entirely independent of the positional arguments, of the
classifier, and of `CSRPath` (subjects and CSR are ignored); and the
suppression flag is left as the caller supplied it. -/
theorem c8_uninstall_frame (c c2 : Config) (env : Env) (ce ce2 : ClassEnv)
    (args args2 : List String)
    (hi : c.InstallMode = false) (hu : c.UninstallMode = true)
    (hc : c2 = { c with CSRPath := "other.csr" }) :
    ((runM c env ce args).trace.all benign = true) ∧
    runM c env ce args = runM c env ce2 args2 ∧
    runM c env ce args = runM c2 env ce2 args2 ∧
    (runM c env ce args).flag = c.ignoreCheckFailure := by
  subst hc
  unfold runM
  rcases hup : uninstall env with ⟨e, t1⟩
  have hben := uninstall_benign env
  rw [hup] at hben
  by_cases h1 : env.caroot = "" <;> cases h2 : env.mkdirOK <;>
    simp_all [hi, hu, List.all_eq_true, benign, Action.isIssuance, Action.isTrustCheck,
      Action.isFileDelete]

theorem install_flag_eq (env : Env) (flag : Bool) :
    (install env flag).2.1 = (installSystem env flag).2.1 := by
  unfold install
  rcases hi : installSystem env flag with ⟨e, f1, t1⟩
  cases e <;> simp

theorem installSystem_flag_true (env : Env) :
    (installSystem env true).2.1 = true := by
  unfold installSystem checkPlatform
  split <;> simp

theorem installSystem_sets_flag (env : Env) (flag : Bool)
    (h1 : storeEnabled env "system" = true)
    (h2 : (checkPlatform env flag).1 = false)
    (h3 : env.installPlatformOK = true) :
    (installSystem env flag).2.1 = true := by
  unfold installSystem
  rcases hcp : checkPlatform env flag with ⟨ok, t⟩
  rw [hcp] at h2
  simp only at h2
  simp [h1, h2, h3]

/-- C7: a system trust check with the suppression flag set returns true
and performs no certificate verification (empty action list); a
successful fresh system-store install during `install` sets the flag,
so the next same-run check succeeds without verifying; and the flag is
never reset by `install`. -/
theorem c7_suppression_flag :
    (∀ env, checkPlatform env true = (true, [])) ∧
    (∀ env flag, storeEnabled env "system" = true →
      (checkPlatform env flag).1 = false → env.installPlatformOK = true →
      (install env flag).2.1 = true ∧
      checkPlatform env (install env flag).2.1 = (true, [])) ∧
    (∀ env, (install env true).2.1 = true) := by
  refine ⟨fun env => by simp [checkPlatform], fun env flag h1 h2 h3 => ?_, fun env => ?_⟩
  · have hflag : (install env flag).2.1 = true := by
      rw [install_flag_eq]
      exact installSystem_sets_flag env flag h1 h2 h3
    exact ⟨hflag, by rw [hflag]; simp [checkPlatform]⟩
  · rw [install_flag_eq]
    exact installSystem_flag_true env

/-- C7 witness: in the default environment (system store enabled,
verification failing, platform install succeeding) a fresh install sets
the flag and the next check returns true without verifying. -/
theorem c7_suppression_flag_witness :
    (install {} false).2.1 = true ∧ checkPlatform {} (install {} false).2.1 = (true, []) :=
  c7_suppression_flag.2.1 {} false (by decide) (by decide) (by decide)

theorem warningsEmitted_warned (calls : List (Option String × Bool × List String)) :
    warningsEmitted calls true = 0 := by
  induction calls with
  | nil => rfl
  | cons c rest ih =>
    rcases c with ⟨u, h, cmd⟩
    cases h1 : u == some "0" <;> cases h <;>
      simp [warningsEmitted, commandWithSudo, h1, ih]

/-- C9: the privileged-execution gate runs the command unmodified when
the current user id is 0; otherwise, with sudo available, it wraps the
command in a sudo invocation with the fixed prompt string; otherwise it
runs the command unwrapped and warns exactly when the warning has not
fired yet; the executed argv never depends on the warning state (no
caching of privilege outcomes); over any whole process lifetime of
calls at most one warning is emitted. -/
theorem c9_sudo_gate :
    (∀ h w cmd, commandWithSudo (some "0") h w cmd = (cmd, w, false)) ∧
    (∀ u w cmd, u ≠ some "0" →
      commandWithSudo u true w cmd = (["sudo", sudoPrompt, "--"] ++ cmd, w, false)) ∧
    (∀ u w cmd, u ≠ some "0" →
      commandWithSudo u false w cmd = (cmd, true, !w)) ∧
    (∀ u h w w2 cmd, (commandWithSudo u h w cmd).1 = (commandWithSudo u h w2 cmd).1) ∧
    (∀ calls, warningsEmitted calls true = 0) ∧
    (∀ calls, warningsEmitted calls false ≤ 1) := by
  refine ⟨fun h w cmd => by simp [commandWithSudo],
          fun u w cmd hu => by simp [commandWithSudo, hu],
          fun u w cmd hu => by simp [commandWithSudo, hu],
          fun u h w w2 cmd => by
            cases h1 : u == some "0" <;> cases h <;> simp [commandWithSudo, h1],
          warningsEmitted_warned, fun calls => ?_⟩
  induction calls with
  | nil => exact Nat.zero_le 1
  | cons c rest ih =>
    rcases c with ⟨u, h, cmd⟩
    cases h1 : u == some "0" <;> cases h <;>
      simp [warningsEmitted, commandWithSudo, h1, ih, warningsEmitted_warned]

/-- C9 witness: concrete calls for each branch, and a two-call process
in which the missing-sudo warning fires only once. -/
theorem c9_sudo_gate_witness :
    commandWithSudo (some "0") true false ["certutil"] = (["certutil"], false, false) ∧
    commandWithSudo (some "1000") true false ["certutil"] =
      (["sudo", sudoPrompt, "--", "certutil"], false, false) ∧
    commandWithSudo (some "1000") false false ["certutil"] = (["certutil"], true, true) ∧
    warningsEmitted
      [(some "1000", false, ["certutil"]), (some "1000", false, ["keytool"])] false ≤ 1 :=
  ⟨c9_sudo_gate.1 true false ["certutil"],
   c9_sudo_gate.2.1 (some "1000") false ["certutil"] (by decide),
   c9_sudo_gate.2.2.1 (some "1000") false ["certutil"] (by decide),
   c9_sudo_gate.2.2.2.2.2
     [(some "1000", false, ["certutil"]), (some "1000", false, ["keytool"])]⟩

/-- C4: any flag combination with Install together with Uninstall, or
a CSR together with one of the PKCS12/ECDSA/client flags, or a CSR
together with positional arguments, never reaches `Config.Run` (only
the `runConfig` outcome triggers any filesystem work, so a fresh
CAROOT stays empty), never falls through to the usage path, and —
when none of the help/version/CAROOT query modes short-circuits
first — is rejected with a fatal configuration error. -/
theorem mainDecide_conflict_fatal (fl : Flags) (args : List String)
    (key : (fl.install && fl.uninstall) = true ∨
           (fl.csr != "" && (fl.pkcs12 || fl.ecdsa || fl.client)) = true ∨
           (fl.csr != "" && args.length != 0) = true)
    (hh : fl.help = false) (hv : fl.version = false) (hc : fl.caroot = false) :
    ∃ msg, mainDecide fl args = .fatalError msg := by
  unfold mainDecide
  simp only [hh, hv, hc, Bool.false_eq_true, if_false]
  by_cases hiu : (fl.install && fl.uninstall) = true
  · simp [hiu]
  · simp only [Bool.not_eq_true] at hiu
    by_cases hc1 : (fl.csr != "" && (fl.pkcs12 || fl.ecdsa || fl.client)) = true
    · simp [hiu, hc1]
    · simp only [Bool.not_eq_true] at hc1
      rcases key with k | k | k
      · rw [k] at hiu; cases hiu
      · rw [k] at hc1; cases hc1
      · simp [hiu, hc1, k]

theorem mainDecide_conflict (fl : Flags) (args : List String)
    (key : (fl.install && fl.uninstall) = true ∨
           (fl.csr != "" && (fl.pkcs12 || fl.ecdsa || fl.client)) = true ∨
           (fl.csr != "" && args.length != 0) = true) :
    mainDecide fl args = .showHelp ∨ mainDecide fl args = .showVersion ∨
    (∃ msg, mainDecide fl args = .fatalError msg) ∨
    mainDecide fl args = .printCAROOT := by
  by_cases h6 : fl.help = true
  · exact Or.inl (by simp [mainDecide, h6])
  · simp only [Bool.not_eq_true] at h6
    by_cases h8 : fl.version = true
    · exact Or.inr (Or.inl (by simp [mainDecide, h6, h8]))
    · simp only [Bool.not_eq_true] at h8
      by_cases h7 : fl.caroot = true
      · by_cases hiu : (fl.install || fl.uninstall) = true
        · exact Or.inr (Or.inr (Or.inl (by simp [mainDecide, h6, h8, h7, hiu])))
        · simp only [Bool.not_eq_true] at hiu
          exact Or.inr (Or.inr (Or.inr (by simp [mainDecide, h6, h8, h7, hiu])))
      · simp only [Bool.not_eq_true] at h7
        exact Or.inr (Or.inr (Or.inl (mainDecide_conflict_fatal fl args key h6 h8 h7)))

/-- C4: any flag combination with Install together with Uninstall, or
a CSR together with one of the PKCS12/ECDSA/client flags, or a CSR
together with positional arguments, never reaches `Config.Run` (only
the `runConfig` outcome triggers any filesystem work, so a fresh
CAROOT stays empty), never falls through to the usage path, and —
when none of the help/version/CAROOT query modes short-circuits
first — is rejected with a fatal configuration error. -/
theorem c4_conflicts_rejected (fl : Flags) (args : List String)
    (h : (fl.install = true ∧ fl.uninstall = true) ∨
         (fl.csr ≠ "" ∧ (fl.pkcs12 = true ∨ fl.ecdsa = true ∨ fl.client = true)) ∨
         (fl.csr ≠ "" ∧ args ≠ [])) :
    (∀ cfg a2, mainDecide fl args ≠ .runConfig cfg a2) ∧
    mainDecide fl args ≠ .showUsage ∧
    (fl.help = false → fl.version = false → fl.caroot = false →
      ∃ msg, mainDecide fl args = .fatalError msg) := by
  have key : (fl.install && fl.uninstall) = true ∨
      (fl.csr != "" && (fl.pkcs12 || fl.ecdsa || fl.client)) = true ∨
      (fl.csr != "" && args.length != 0) = true := by
    rcases h with ⟨ha, hb⟩ | ⟨ha, hb⟩ | ⟨ha, hb⟩
    · exact Or.inl (by rw [ha, hb]; rfl)
    · refine Or.inr (Or.inl ?_)
      have h1 : (fl.csr != "") = true := bne_iff_ne.mpr ha
      rcases hb with hb | hb | hb <;> simp [h1, hb]
    · refine Or.inr (Or.inr ?_)
      have h1 : (fl.csr != "") = true := bne_iff_ne.mpr ha
      have h2 : (args.length != 0) = true :=
        bne_iff_ne.mpr fun hlen => hb (List.length_eq_zero.mp hlen)
      simp [h1, h2]
  have hout := mainDecide_conflict fl args key
  refine ⟨fun cfg a2 hcontra => ?_, fun hcontra => ?_, fun hh hv hc => ?_⟩
  · rcases hout with ho | ho | ⟨m, ho⟩ | ho <;> rw [ho] at hcontra <;> cases hcontra
  · rcases hout with ho | ho | ⟨m, ho⟩ | ho <;> rw [ho] at hcontra <;> cases hcontra
  · exact mainDecide_conflict_fatal fl args key hh hv hc

/-- C4 witness: each of the three conflicting combinations at concrete
flags is a fatal configuration error and reaches neither `Config.Run`
nor the usage path. -/
theorem c4_conflicts_rejected_witness :
    (∀ cfg a2, mainDecide { install := true, uninstall := true } [] ≠ .runConfig cfg a2) ∧
    (∃ msg, mainDecide { install := true, uninstall := true } [] = .fatalError msg) ∧
    (∃ msg, mainDecide { csr := "req.csr", pkcs12 := true } [] = .fatalError msg) ∧
    (∃ msg, mainDecide { csr := "req.csr" } ["example.org"] = .fatalError msg) ∧
    mainDecide { csr := "req.csr" } ["example.org"] ≠ .showUsage :=
  ⟨(c4_conflicts_rejected _ [] (Or.inl ⟨rfl, rfl⟩)).1,
   (c4_conflicts_rejected _ [] (Or.inl ⟨rfl, rfl⟩)).2.2 rfl rfl rfl,
   (c4_conflicts_rejected _ [] (Or.inr (Or.inl ⟨by decide, Or.inl rfl⟩))).2.2 rfl rfl rfl,
   (c4_conflicts_rejected _ ["example.org"]
     (Or.inr (Or.inr ⟨by decide, by decide⟩))).2.2 rfl rfl rfl,
   (c4_conflicts_rejected _ ["example.org"]
     (Or.inr (Or.inr ⟨by decide, by decide⟩))).2.1⟩

theorem classifyArgs_ok_map (ce : ClassEnv) (args : List String)
    (h : ∀ n ∈ args, ∀ msg, classifyOne ce n ≠ .fail msg) :
    classifyArgs ce args = .ok (args.map (subst ce)) := by
  induction args with
  | nil => rfl
  | cons a rest ih =>
    have ha := h a (List.mem_cons_self a rest)
    have ih2 := ih fun n hn msg => h n (List.mem_cons_of_mem a hn) msg
    cases hc : classifyOne ce a with
    | fail m => exact absurd hc (ha m)
    | keep => simp [classifyArgs, subst, hc, ih2]
    | replace p => simp [classifyArgs, subst, hc, ih2]

theorem classifyArgs_fail_atomic (ce : ClassEnv) (pre : List String) (name msg : String)
    (h : classifyOne ce name = .fail msg) (rest1 rest2 : List String) :
    classifyArgs ce (pre ++ name :: rest1) = classifyArgs ce (pre ++ name :: rest2) ∧
    ∃ m, classifyArgs ce (pre ++ name :: rest1) = .error m := by
  induction pre with
  | nil => exact ⟨by simp [classifyArgs, h], msg, by simp [classifyArgs, h]⟩
  | cons a pre ih =>
    rcases ih with ⟨heq, m, herr⟩
    cases hc : classifyOne ce a with
    | fail m2 =>
      exact ⟨by simp [classifyArgs, hc], m2, by simp [classifyArgs, hc]⟩
    | keep =>
      exact ⟨by simp [classifyArgs, hc, heq], m, by simp [classifyArgs, hc, herr]⟩
    | replace p =>
      exact ⟨by simp [classifyArgs, hc, heq], m, by simp [classifyArgs, hc, herr]⟩

/-- C5: the classifier applies the fixed precedence order IP literal,
then email (accepted only when the parsed canonical address equals the
raw input, so display-name-wrapped input falls through to the terminal
hostname path), then URI with both a scheme and a host (a URI missing
its host falls through to the punycode hostname path), then hostname
candidate; punycode conversions replace the original arguments in
place in the resulting subject list; and classification of the whole
list fails atomically on the first invalid entry, independently of
whatever comes after it. -/
theorem c5_classifier_contract :
    (∀ ce name, ce.parseIP name = true → classifyOne ce name = .keep) ∧
    (∀ ce name, ce.parseIP name = false → ce.parseAddress name = some name →
      classifyOne ce name = .keep) ∧
    (∀ ce name addr p, ce.parseIP name = false → ce.parseAddress name = some addr →
      addr ≠ name → ce.parseURL name = none → ce.toASCII name = .ok p →
      hostnameRegexpMatch p = false →
      classifyOne ce name =
        .fail ("ERROR: \"" ++ name ++ "\" is not a valid hostname, IP, URL or email")) ∧
    (∀ ce name e, ce.parseIP name = false → ce.parseAddress name = none →
      ce.parseURL name = none → ce.toASCII name = .error e →
      classifyOne ce name =
        .fail ("ERROR: \"" ++ name ++ "\" is not a valid hostname, IP, URL or email: " ++ e)) ∧
    (∀ ce name s h, ce.parseIP name = false → ce.parseAddress name = none →
      ce.parseURL name = some (s, h) → s ≠ "" → h ≠ "" →
      classifyOne ce name = .keep) ∧
    (∀ ce name p, ce.parseIP name = false → ce.parseAddress name = none →
      ce.parseURL name = none → ce.toASCII name = .ok p →
      hostnameRegexpMatch p = true → classifyOne ce name = .replace p) ∧
    (∀ ce name s p, ce.parseIP name = false → ce.parseAddress name = none →
      ce.parseURL name = some (s, "") → ce.toASCII name = .ok p →
      hostnameRegexpMatch p = false →
      classifyOne ce name =
        .fail ("ERROR: \"" ++ name ++ "\" is not a valid hostname, IP, URL or email")) ∧
    (∀ ce args, (∀ n ∈ args, ∀ msg, classifyOne ce n ≠ .fail msg) →
      classifyArgs ce args = .ok (args.map (subst ce))) ∧
    (∀ ce pre name msg rest1 rest2, classifyOne ce name = .fail msg →
      classifyArgs ce (pre ++ name :: rest1) = classifyArgs ce (pre ++ name :: rest2) ∧
      ∃ m, classifyArgs ce (pre ++ name :: rest1) = .error m) := by
  refine ⟨fun ce name h1 => by simp [classifyOne, h1],
          fun ce name h1 h2 => by simp [classifyOne, h1, h2],
          fun ce name addr p h1 h2 h3 h4 h5 h6 => by
            simp [classifyOne, h1, h2, h3, h4, h5, h6],
          fun ce name e h1 h2 h3 h4 => by simp [classifyOne, h1, h2, h3, h4],
          fun ce name s h h1 h2 h3 h4 h5 => by simp [classifyOne, h1, h2, h3, h4, h5],
          fun ce name p h1 h2 h3 h4 h5 => by simp [classifyOne, h1, h2, h3, h4, h5],
          fun ce name s p h1 h2 h3 h4 h5 => by simp [classifyOne, h1, h2, h3, h4, h5],
          classifyArgs_ok_map,
          fun ce pre name msg rest1 rest2 h =>
            classifyArgs_fail_atomic ce pre name msg h rest1 rest2⟩

/-- C5 witness: each precedence step at a concrete input of the test
classifier environment, the in-place punycode substitution, and the
atomic failure on the first invalid entry. -/
theorem c5_classifier_contract_witness :
    classifyOne ceTest "127.0.0.1" = .keep ∧
    classifyOne ceTest "dev@example.com" = .keep ∧
    classifyOne ceTest "Dev <dev@example.com>" =
      .fail "ERROR: \"Dev <dev@example.com>\" is not a valid hostname, IP, URL or email" ∧
    classifyOne ceTest "bad host" =
      .fail "ERROR: \"bad host\" is not a valid hostname, IP, URL or email: idna: disallowed rune" ∧
    classifyOne ceTest "https://example.com/run" = .keep ∧
    classifyOne ceTest "münchen.de" = .replace "xn--mnchen-3ya.de" ∧
    classifyOne ceTest "relative/path" =
      .fail "ERROR: \"relative/path\" is not a valid hostname, IP, URL or email" ∧
    classifyArgs ceTest ["127.0.0.1", "münchen.de"] =
      .ok (["127.0.0.1", "münchen.de"].map (subst ceTest)) ∧
    (classifyArgs ceTest ["127.0.0.1", "bad host", "x"] =
      classifyArgs ceTest ["127.0.0.1", "bad host", "y", "z"] ∧
     ∃ m, classifyArgs ceTest ["127.0.0.1", "bad host", "x"] = .error m) :=
  ⟨c5_classifier_contract.1 ceTest "127.0.0.1" (by decide),
   c5_classifier_contract.2.1 ceTest "dev@example.com" (by decide) (by decide),
   c5_classifier_contract.2.2.1 ceTest "Dev <dev@example.com>" "dev@example.com"
     "Dev <dev@example.com>" (by decide) (by decide) (by decide) (by decide)
     rfl (by decide),
   c5_classifier_contract.2.2.2.1 ceTest "bad host" "idna: disallowed rune"
     (by decide) (by decide) (by decide) rfl,
   c5_classifier_contract.2.2.2.2.1 ceTest "https://example.com/run" "https" "example.com"
     (by decide) (by decide) (by decide) (by decide) (by decide),
   c5_classifier_contract.2.2.2.2.2.1 ceTest "münchen.de" "xn--mnchen-3ya.de"
     (by decide) (by decide) (by decide) rfl (by decide),
   c5_classifier_contract.2.2.2.2.2.2.1 ceTest "relative/path" "" "relative/path"
     (by decide) (by decide) (by decide) rfl (by decide),
   c5_classifier_contract.2.2.2.2.2.2.2.1 ceTest ["127.0.0.1", "münchen.de"]
     (by
       intro n hn msg h
       rcases List.mem_cons.mp hn with rfl | hn2
       · rw [show classifyOne ceTest "127.0.0.1" = .keep by decide] at h; cases h
       · rcases List.mem_cons.mp hn2 with rfl | hn3
         · rw [show classifyOne ceTest "münchen.de" = .replace "xn--mnchen-3ya.de"
               by decide] at h
           cases h
         · cases hn3),
   c5_classifier_contract.2.2.2.2.2.2.2.2 ceTest ["127.0.0.1"] "bad host"
     "ERROR: \"bad host\" is not a valid hostname, IP, URL or email: idna: disallowed rune"
     ["x"] ["y", "z"] (by decide)⟩

theorem bodyTail_all_tailChar : ∀ {l : List Char}, bodyTail l = true →
    ∀ c ∈ l, tailChar c = true := by
  intro l
  induction l with
  | nil => intro _ c hc; cases hc
  | cons a rest ih =>
    intro h c hc
    cases rest with
    | nil =>
      rw [List.mem_singleton.mp hc]
      rw [bodyTail] at h
      simp [tailChar, h]
    | cons b rest2 =>
      change (tailChar a && bodyTail (b :: rest2)) = true at h
      simp only [Bool.and_eq_true] at h
      rcases h with ⟨h1, h2⟩
      rcases List.mem_cons.mp hc with rfl | hc2
      · exact h1
      · exact ih h2 c hc2

theorem bodyMatch_all {l : List Char} (h : bodyMatch l = true) :
    ∀ c ∈ l, tailChar c = true := by
  cases l with
  | nil => cases h
  | cons a rest =>
    rw [bodyMatch] at h
    simp only [Bool.and_eq_true] at h
    rcases h with ⟨h1, h2⟩
    intro c hc
    rcases List.mem_cons.mp hc with rfl | hc2
    · simp [tailChar, h1]
    · exact bodyTail_all_tailChar h2 c hc2

theorem hostnameRegexpMatch_chars {s : String} (h : hostnameRegexpMatch s = true) :
    ∀ c ∈ s.data, tailChar c = true ∨ c = '*' := by
  intro c hc
  unfold hostnameRegexpMatch at h
  split at h
  next rest heq =>
    rw [heq] at hc
    rcases List.mem_cons.mp hc with rfl | hc2
    · exact Or.inr rfl
    · rcases List.mem_cons.mp hc2 with rfl | hc3
      · exact Or.inl (by decide)
      · exact Or.inl (bodyMatch_all h c hc3)
  next => exact Or.inl (bodyMatch_all h c hc)

theorem hostnameRegexpMatch_wildcard (s : String) :
    hostnameRegexpMatch ("*." ++ s) = bodyMatch s.data := by
  rcases s with ⟨d⟩
  rfl

/-- C6: the punycode result is validated against the regexp grammar —
one optional leading literal `*.`, then characters from the
case-folded class (digits, letters of either case, underscore,
hyphen, with dots as interior separators), never a leading or trailing
dot; every character of an accepted string lies in the class (or is
the `*` of the wildcard); `"*.example.org"` is accepted as a DNS name
while `"*example.org"` (no dot after the star) draws the terminal
classification error. -/
theorem c6_hostname_grammar :
    hostnameRegexpMatch "*.example.org" = true ∧
    hostnameRegexpMatch "*example.org" = false ∧
    hostnameRegexpMatch "ExAmPlE.oRg" = true ∧
    hostnameRegexpMatch "_wild-card.example.org" = true ∧
    hostnameRegexpMatch "exa mple.org" = false ∧
    hostnameRegexpMatch "example.org." = false ∧
    hostnameRegexpMatch ".example.org" = false ∧
    (∀ s, hostnameRegexpMatch ("*." ++ s) = bodyMatch s.data) ∧
    (∀ s, hostnameRegexpMatch s = true → ∀ c ∈ s.data, tailChar c = true ∨ c = '*') ∧
    classifyOne ceTest "*.example.org" = .replace "*.example.org" ∧
    classifyOne ceTest "*example.org" =
      .fail "ERROR: \"*example.org\" is not a valid hostname, IP, URL or email" :=
  ⟨by decide, by decide, by decide, by decide, by decide, by decide, by decide,
   hostnameRegexpMatch_wildcard, fun _ => hostnameRegexpMatch_chars,
   by decide, by decide⟩

/-- C6 witness: the character-soundness conjunct applied to the
accepted wildcard name at a concrete character. -/
theorem c6_hostname_grammar_witness :
    tailChar 'e' = true ∨ 'e' = '*' :=
  c6_hostname_grammar.2.2.2.2.2.2.2.2.1 "*.example.org" (by decide) 'e' (by decide)

/-- C1 (code-bug evaluation): with an empty subject list, no CSR and
neither Install nor Uninstall mode, `main` does not surface the usage
error — its usage guard tests `csr != ""` — and instead hands the
config to `Config.Run`, whose run creates the CAROOT directory, loads
(materialising if absent) the CA, and proceeds to issuance with an
empty subject list; meanwhile a CSR alone, which the usage text
documents as a certificate-generating invocation, is what actually
draws the usage path. -/
theorem c1_empty_invocation_reaches_run :
    mainDecide {} [] = .runConfig (configOf {}) [] ∧
    mainDecide { csr := "req.csr" } [] = .showUsage ∧
    Action.mkdirCAROOT ({} : Env).caroot ∈ (runM (configOf {}) {} ceTest []).trace ∧
    Action.loadCA ∈ (runM (configOf {}) {} ceTest []).trace ∧
    Action.makeCert [] ∈ (runM (configOf {}) {} ceTest []).trace :=
  ⟨by decide, by decide, by decide, by decide, by decide⟩

/-- C2 (code-bug evaluation): Install mode together with a CSR
installs and then returns without issuing anything — the install
branch of `Run` returns whenever the positional argument list is
empty, never consulting `CSRPath` — whereas Install together with
subjects does chain into issuance, and a CSR in default mode does
reach `makeCertFromCSR`. -/
theorem c2_install_with_csr_never_issues :
    (runM { InstallMode := true, CSRPath := "req.csr" } envFull ceTest []).result = .ok ∧
    Action.installPlatform ∈
      (runM { InstallMode := true, CSRPath := "req.csr" } envFull ceTest []).trace ∧
    ((runM { InstallMode := true, CSRPath := "req.csr" } envFull ceTest []).trace.all
      fun a => !a.isIssuance) = true ∧
    Action.makeCert ["example.org"] ∈
      (runM { InstallMode := true } envFull ceTest ["example.org"]).trace ∧
    Action.makeCertFromCSR "req.csr" ∈
      (runM { CSRPath := "req.csr" } envFull ceTest []).trace :=
  ⟨by decide, by decide, by decide, by decide, by decide⟩

/-- C10: `Config.Run` copies the caller's value into a fresh instance,
so nothing persists between calls: the second of two successive runs
on the same `Config` is the same function of that `Config` alone, a
run of a `Config` whose suppression flag is unset behaves exactly as a
run started with `ignoreCheckFailure := false`, and yet a run can set
the flag internally (the concrete install run ends with flag `true`),
invisibly to the caller. -/
theorem c10_config_run_stateless (c : Config) (env1 env2 : Env) (ce : ClassEnv)
    (a1 a2 : List String) (h : c.ignoreCheckFailure = false) :
    (Config.RunTwice c env1 env2 ce a1 a2).2 = Config.Run c env2 ce a2 ∧
    Config.Run c env2 ce a2 =
      (runM { c with ignoreCheckFailure := false } env2 ce a2).result ∧
    (Config.RunFull { InstallMode := true } {} ceTest []).flag = true := by
  refine ⟨rfl, ?_, by decide⟩
  have hc : ({ c with ignoreCheckFailure := false } : Config) = c := by
    cases c
    simp_all
  rw [hc]
  rfl

/-- C10 witness: the statelessness theorem at a concrete default
`Config`, whose suppression flag is unset. -/
theorem c10_config_run_stateless_witness :
    (Config.RunTwice {} envFull {} ceTest ["example.org"] []).2 =
      Config.Run {} {} ceTest [] ∧
    Config.Run {} {} ceTest [] =
      (runM { ({} : Config) with ignoreCheckFailure := false } {} ceTest []).result ∧
    (Config.RunFull { InstallMode := true } {} ceTest []).flag = true :=
  c10_config_run_stateless {} envFull {} ceTest ["example.org"] [] rfl

/-- C8 witness: the frame theorem at a concrete uninstall-mode config,
with the CSR-carrying variant and different arguments observing the
same outcome. -/
theorem c8_uninstall_frame_witness :
    ((runM { UninstallMode := true } envFull ceTest ["example.org"]).trace.all
      benign = true) ∧
    runM { UninstallMode := true } envFull ceTest ["example.org"] =
      runM { UninstallMode := true, CSRPath := "other.csr" } envFull ceTest [] :=
  ⟨(c8_uninstall_frame { UninstallMode := true } _ envFull ceTest ceTest
      ["example.org"] [] rfl rfl rfl).1,
   (c8_uninstall_frame { UninstallMode := true } _ envFull ceTest ceTest
      ["example.org"] [] rfl rfl rfl).2.2.1⟩

end Mkcert
